import Mathlib

/-
  Verification of the trustforge-be scan pipeline.

  The definitions below are a shallow embedding of the TypeScript source:
    * scan.processor.ts : calculateTFScore, generateRecommendations,
      pollVirusTotalResults, processScan (control flow and persistence
      effects modelled as an explicit event trace),
    * scan.service.ts : retryScan.

  JavaScript objects of heterogeneous shape (a provider result can be a
  findings payload, an object with an `error` field produced by the
  orchestrator's catch blocks, or a skip marker object) are embedded as
  inductive types with one constructor per shape the code can produce.
-/

namespace TrustForge

/-- The `appsec` section of a MobSF report: severity-tagged issue lists
(`high`, `medium`, `low`).  Issues are opaque to the scorer except for
their count, so they are embedded as strings. -/
structure MobSFAppSec where
  high : List String
  medium : List String
  low : List String
  deriving Repr, DecidableEq

/-- Shape of the `mobsf` field of the combined results object:
absent (undefined), an object without an `appsec` section, or an object
with one.  `results.mobsf?.appsec` is truthy exactly in the last case. -/
inductive MobSFRes where
  | absent
  | noAppsec
  | withAppsec (appsec : MobSFAppSec)
  deriving Repr, DecidableEq

/-- One VirusTotal engine entry: only its `category` field is inspected. -/
structure VTEngine where
  category : String
  deriving Repr, DecidableEq

/-- Shape of the `virustotal` field: absent, an `\x7berror: msg\x7d` object
(from a caught failure), a `\x7bskipped: true, reason\x7d` marker
(oversized file), or the per-engine results map, embedded as the list of
its values. -/
inductive VTResult where
  | absent
  | errorResult (msg : String)
  | skippedResult (reason : String)
  | engines (results : List VTEngine)
  deriving Repr, DecidableEq

/-- One MetaDefender `scan_details` entry: only `threat_found` is inspected. -/
structure MDDetail where
  threat_found : Bool
  deriving Repr, DecidableEq

/-- Shape of the `metadefender` field: absent, an error object, a result
object without `scan_details`, or one with `scan_details` (embedded as the
list of its values). -/
inductive MDResult where
  | absent
  | errorResult (msg : String)
  | noDetails
  | details (scan_details : List MDDetail)
  deriving Repr, DecidableEq

/-- A Hybrid Analysis report summary: `verdict` may be missing; a missing
`threats` array defaults to `[]` in the destructuring, so it is embedded
directly as a list. -/
structure HASummary where
  verdict : Option String
  threats : List String
  deriving Repr, DecidableEq

/-- Shape of the `hybridAnalysis` field: absent, an error object, or a
report summary. -/
inductive HAResult where
  | absent
  | errorResult (msg : String)
  | summary (s : HASummary)
  deriving Repr, DecidableEq

/-- The combined results object passed to `calculateTFScore` and
`generateRecommendations` (fields `mobsf`, `virustotal`, `metadefender`,
`hybridAnalysis`). -/
structure ScanResults where
  mobsf : MobSFRes
  virustotal : VTResult
  metadefender : MDResult
  hybridAnalysis : HAResult
  deriving Repr, DecidableEq

/-- MobSF scoring block of `calculateTFScore`:
`score -= high.length * 10; score -= medium.length * 5; score -= low.length * 2`
guarded by `if (results.mobsf?.appsec)`. -/
def mobsfDeduction : MobSFRes → Int
  | .withAppsec a =>
      (a.high.length : Int) * 10 + (a.medium.length : Int) * 5 +
        (a.low.length : Int) * 2
  | _ => 0

/-- VirusTotal scoring block: guarded by
`if (results.virustotal && !results.virustotal.error)`; counts
`Object.values(...)` whose `category === "malicious"` and deducts 5 each.
On the skip marker object no value has a `category` field, so the count
is 0. -/
def vtDeduction : VTResult → Int
  | .engines rs =>
      ((rs.filter (fun r => r.category == "malicious")).length : Int) * 5
  | _ => 0

/-- MetaDefender scoring block: guarded by
`if (results.metadefender && !results.metadefender.error)`; counts
`scan_details` values with `threat_found` (0 when `scan_details` is
missing) and deducts 5 each. -/
def mdDeduction : MDResult → Int
  | .details ds => ((ds.filter (fun d => d.threat_found)).length : Int) * 5
  | _ => 0

/-- Hybrid Analysis scoring block: guarded by
`if (results.hybridAnalysis && !results.hybridAnalysis.error)`; deducts 20
for verdict `"malicious"`, else 10 for `"suspicious"`, plus 3 per entry of
`threats`. -/
def haDeduction : HAResult → Int
  | .summary s =>
      (if s.verdict = some ("malicious") then (20 : Int)
       else if s.verdict = some ("suspicious") then 10 else 0) +
        (s.threats.length : Int) * 3
  | _ => 0

/-- `calculateTFScore`: starts at 100, applies the four per-provider
deduction blocks in sequence, and returns
`Math.max(0, Math.min(100, score))`. -/
def calculateTFScore (results : ScanResults) : Int :=
  let score : Int := 100
  let score := score - mobsfDeduction results.mobsf
  let score := score - vtDeduction results.virustotal
  let score := score - mdDeduction results.metadefender
  let score := score - haDeduction results.hybridAnalysis
  max 0 (min 100 score)

/-- `generateRecommendations`: pushes provider-category recommendation
strings in source order (MobSF high/medium/low, VirusTotal, MetaDefender,
Hybrid Analysis), each under the truthiness test the code performs. -/
def generateRecommendations (scanResults : ScanResults) : List String :=
  let recs : List String := []
  let recs := match scanResults.mobsf with
    | .withAppsec a =>
        let recs := if a.high.length ≠ 0 then
          recs ++ ["Fix high-severity vulnerabilities immediately."] else recs
        let recs := if a.medium.length ≠ 0 then
          recs ++ ["Review and address medium-severity vulnerabilities."] else recs
        if a.low.length ≠ 0 then
          recs ++ ["Follow best practices to address low-severity issues."] else recs
    | _ => recs
  let recs := match scanResults.virustotal with
    | .engines rs =>
        if 0 < (rs.filter (fun r => r.category == "malicious")).length then
          recs ++ ["Investigate files flagged as malicious by VirusTotal."]
        else recs
    | _ => recs
  let recs := match scanResults.metadefender with
    | .details ds =>
        if 0 < (ds.filter (fun d => d.threat_found)).length then
          recs ++ ["Review threats identified by MetaDefender."]
        else recs
    | _ => recs
  match scanResults.hybridAnalysis with
    | .summary s =>
        if s.verdict = some ("malicious") then
          recs ++ ["Take immediate action on malicious findings from Hybrid Analysis."]
        else recs
    | _ => recs

/-- The deduction schedule exactly as the specification words it, over the
per-category adverse counts: 100 minus 10/high, 5/medium, 2/low, 5 per
malicious AV engine, 5 per reputation detection, 20 or 10 for a
malicious or suspicious sandbox verdict, 3 per sandbox threat, clamped
to [0,100]. -/
def specScore (high medium low avMalicious repDetections : Nat)
    (verdict : Option String) (threats : Nat) : Int :=
  let verdictPenalty : Int :=
    if verdict = some ("malicious") then 20
    else if verdict = some ("suspicious") then 10 else 0
  max 0 (min 100
    (100 - 10 * high - 5 * medium - 2 * low - 5 * avMalicious -
      5 * repDetections - verdictPenalty - 3 * threats))

/-- The end-to-end scenario bundle: 2 high + 1 medium static findings,
1 malicious AV engine out of 10, reputation service contributing no
signal (the code records a failed/oversized reputation scan as an object
with an `error` field), sandbox verdict clean. -/
def endToEndBundle : ScanResults :=
  { mobsf := .withAppsec { high := ["h1", "h2"], medium := ["m1"], low := [] }
  , virustotal := .engines
      ({ category := "malicious" } :: List.replicate 9 { category := "undetected" })
  , metadefender := .errorResult ("File too large for reputation scan")
  , hybridAnalysis := .summary { verdict := some ("clean"), threats := [] } }

/-- C1: the scoring function realises exactly the spec's deduction
schedule — for any bundle in which every provider produced findings, the
score equals 100 minus 10 per high, 5 per medium, 2 per low static
finding, 5 per malicious AV engine, 5 per reputation detection, 20/10
for a malicious/suspicious sandbox verdict and 3 per sandbox threat,
clamped to [0,100] — and on the end-to-end scenario bundle (2 high + 1
medium static findings, 1 of 10 AV engines malicious, reputation skipped,
sandbox clean) the score is 70 and the recommendations contain the
high-severity and AV-investigation strings but no sandbox
recommendation. -/
theorem C1_score_formula_and_scenario :
    (∀ (hs ms ls : List String) (es : List VTEngine) (ds : List MDDetail)
      (v : Option String) (ts : List String),
      calculateTFScore
        { mobsf := .withAppsec { high := hs, medium := ms, low := ls }
        , virustotal := .engines es
        , metadefender := .details ds
        , hybridAnalysis := .summary { verdict := v, threats := ts } } =
      specScore hs.length ms.length ls.length
        (es.filter (fun r => r.category == "malicious")).length
        (ds.filter (fun d => d.threat_found)).length v ts.length) ∧
    calculateTFScore endToEndBundle = 70 ∧
    generateRecommendations endToEndBundle =
      ["Fix high-severity vulnerabilities immediately.",
       "Review and address medium-severity vulnerabilities.",
       "Investigate files flagged as malicious by VirusTotal."] := by
  refine ⟨?_, by decide, by decide⟩
  intro hs ms ls es ds v ts
  simp only [calculateTFScore, specScore, mobsfDeduction, vtDeduction,
    mdDeduction, haDeduction]
  split_ifs <;> omega

/-- Clamping to [0,100] is monotone. -/
lemma clamp_mono {a b : Int} (h : a ≤ b) :
    max 0 (min 100 a) ≤ max 0 (min 100 b) :=
  max_le_max (le_refl 0) (min_le_min (le_refl 100) h)

/-- C2: every trust score is an integer in [0,100], and the score is
monotonically non-increasing in each adverse-finding count (high, medium
and low static findings, malicious AV engines, reputation detections,
sandbox threats), the rest of the bundle held fixed. -/
theorem C2_bounds_and_monotone :
    (∀ r : ScanResults, 0 ≤ calculateTFScore r ∧ calculateTFScore r ≤ 100) ∧
    (∀ (r : ScanResults) (a a2 : MobSFAppSec),
      a.high.length ≤ a2.high.length → a.medium.length = a2.medium.length →
      a.low.length = a2.low.length →
      calculateTFScore { r with mobsf := .withAppsec a2 } ≤
        calculateTFScore { r with mobsf := .withAppsec a }) ∧
    (∀ (r : ScanResults) (a a2 : MobSFAppSec),
      a.high.length = a2.high.length → a.medium.length ≤ a2.medium.length →
      a.low.length = a2.low.length →
      calculateTFScore { r with mobsf := .withAppsec a2 } ≤
        calculateTFScore { r with mobsf := .withAppsec a }) ∧
    (∀ (r : ScanResults) (a a2 : MobSFAppSec),
      a.high.length = a2.high.length → a.medium.length = a2.medium.length →
      a.low.length ≤ a2.low.length →
      calculateTFScore { r with mobsf := .withAppsec a2 } ≤
        calculateTFScore { r with mobsf := .withAppsec a }) ∧
    (∀ (r : ScanResults) (es es2 : List VTEngine),
      (es.filter (fun e => e.category == "malicious")).length ≤
        (es2.filter (fun e => e.category == "malicious")).length →
      calculateTFScore { r with virustotal := .engines es2 } ≤
        calculateTFScore { r with virustotal := .engines es }) ∧
    (∀ (r : ScanResults) (ds ds2 : List MDDetail),
      (ds.filter (fun d => d.threat_found)).length ≤
        (ds2.filter (fun d => d.threat_found)).length →
      calculateTFScore { r with metadefender := .details ds2 } ≤
        calculateTFScore { r with metadefender := .details ds }) ∧
    (∀ (r : ScanResults) (v : Option String) (ts ts2 : List String),
      ts.length ≤ ts2.length →
      calculateTFScore
          { r with hybridAnalysis := .summary { verdict := v, threats := ts2 } } ≤
        calculateTFScore
          { r with hybridAnalysis := .summary { verdict := v, threats := ts } }) := by
  refine ⟨?_, ?_, ?_, ?_, ?_, ?_, ?_⟩
  · intro r
    constructor
    · exact le_max_left 0 _
    · exact max_le (by norm_num) (min_le_left _ _)
  · rintro ⟨m, v, md, ha⟩ a a2 h1 h2 h3
    simp only [calculateTFScore, mobsfDeduction]
    exact clamp_mono (by omega)
  · rintro ⟨m, v, md, ha⟩ a a2 h1 h2 h3
    simp only [calculateTFScore, mobsfDeduction]
    exact clamp_mono (by omega)
  · rintro ⟨m, v, md, ha⟩ a a2 h1 h2 h3
    simp only [calculateTFScore, mobsfDeduction]
    exact clamp_mono (by omega)
  · rintro ⟨m, v, md, ha⟩ es es2 h
    simp only [calculateTFScore, vtDeduction]
    exact clamp_mono (by omega)
  · rintro ⟨m, v, md, ha⟩ ds ds2 h
    simp only [calculateTFScore, mdDeduction]
    exact clamp_mono (by omega)
  · rintro ⟨m, v, md, ha⟩ vd ts ts2 h
    simp only [calculateTFScore, haDeduction]
    exact clamp_mono (by omega)

/-- C2 witness: concrete instances — bounds on the scenario bundle, and
monotonicity comparing zero with two high-severity findings. -/
theorem C2_bounds_and_monotone_witness :
    (0 ≤ calculateTFScore endToEndBundle ∧
      calculateTFScore endToEndBundle ≤ 100) ∧
    calculateTFScore
        { endToEndBundle with
            mobsf := .withAppsec { high := ["h1", "h2"], medium := [], low := [] } } ≤
      calculateTFScore
        { endToEndBundle with
            mobsf := .withAppsec { high := [], medium := [], low := [] } } :=
  ⟨C2_bounds_and_monotone.1 endToEndBundle,
    C2_bounds_and_monotone.2.1 endToEndBundle
      { high := [], medium := [], low := [] }
      { high := ["h1", "h2"], medium := [], low := [] }
      (by decide) (by decide) (by decide)⟩

/-- A `mobsf` field carrying no findings signal: absent or without an
`appsec` section (a failed mandatory scan never reaches the scorer, so
these are the shapes a non-contributing MobSF result can take). -/
def MobSFRes.isNoSignal : MobSFRes → Bool
  | .withAppsec _ => false
  | _ => true

/-- A `virustotal` field that is Failed (`error` object), Skipped
(`skipped` marker) or absent. -/
def VTResult.isNoSignal : VTResult → Bool
  | .engines _ => false
  | _ => true

/-- A `metadefender` field that is Failed (`error` object), absent, or a
result without `scan_details`. -/
def MDResult.isNoSignal : MDResult → Bool
  | .details _ => false
  | _ => true

/-- A `hybridAnalysis` field that is Failed (`error` object) or absent. -/
def HAResult.isNoSignal : HAResult → Bool
  | .summary _ => false
  | _ => true

/-- A bundle in which every provider outcome is Skipped or Failed:
VirusTotal skipped (oversized file marker), the rest recorded as caught
failures or absent. -/
def allSkippedBundle : ScanResults :=
  { mobsf := .absent
  , virustotal := .skippedResult ("File too large for VirusTotal scan")
  , metadefender := .errorResult ("MetaDefender scan failed")
  , hybridAnalysis := .errorResult ("Hybrid Analysis scan failed") }

/-- C3: a bundle in which every provider contributes no signal (Failed,
Skipped or absent) scores exactly 100 with an empty recommendations
list, and each Failed/Skipped provider outcome contributes zero
deduction in its scoring block. -/
theorem C3_no_signal_scores_100 :
    (∀ r : ScanResults,
      r.mobsf.isNoSignal = true → r.virustotal.isNoSignal = true →
      r.metadefender.isNoSignal = true → r.hybridAnalysis.isNoSignal = true →
      calculateTFScore r = 100 ∧ generateRecommendations r = []) ∧
    (∀ m : MobSFRes, m.isNoSignal = true → mobsfDeduction m = 0) ∧
    (∀ v : VTResult, v.isNoSignal = true → vtDeduction v = 0) ∧
    (∀ d : MDResult, d.isNoSignal = true → mdDeduction d = 0) ∧
    (∀ h : HAResult, h.isNoSignal = true → haDeduction h = 0) := by
  refine ⟨?_, ?_, ?_, ?_, ?_⟩
  · rintro ⟨m, v, md, ha⟩ h1 h2 h3 h4
    cases m <;> cases v <;> cases md <;> cases ha <;>
      simp_all [calculateTFScore, generateRecommendations, mobsfDeduction,
        vtDeduction, mdDeduction, haDeduction, MobSFRes.isNoSignal,
        VTResult.isNoSignal, MDResult.isNoSignal, HAResult.isNoSignal]
  · intro m h
    cases m <;> simp_all [mobsfDeduction, MobSFRes.isNoSignal]
  · intro v h
    cases v <;> simp_all [vtDeduction, VTResult.isNoSignal]
  · intro d h
    cases d <;> simp_all [mdDeduction, MDResult.isNoSignal]
  · intro h hh
    cases h <;> simp_all [haDeduction, HAResult.isNoSignal]

/-- C3 witness: the concrete all-Skipped/Failed bundle scores 100 with no
recommendations. -/
theorem C3_no_signal_scores_100_witness :
    calculateTFScore allSkippedBundle = 100 ∧
    generateRecommendations allSkippedBundle = [] :=
  C3_no_signal_scores_100.1 allSkippedBundle
    (by decide) (by decide) (by decide) (by decide)

/-- One VirusTotal analysis response: `data.data.attributes.status` plus
the `results` payload returned when the status is `"completed"`. -/
structure VTAnalysisResponse where
  status : String
  results : String
  deriving Repr, DecidableEq

/-- What one poll attempt observes: a structurally valid response, or a
request error thrown by the HTTP client (network hiccup, malformed
body). -/
inductive VTPollStep where
  | response (r : VTAnalysisResponse)
  | requestError (msg : String)
  deriving Repr, DecidableEq

/-- The timeout message built by `pollVirusTotalResults`. -/
def vtTimeoutMsg (maxAttempts : Nat) : String :=
  "VirusTotal scan timed out after " ++ toString maxAttempts ++ " attempts"

/-- The polling loop of `pollVirusTotalResults`, over a scripted sequence
of responses (`script i` is what attempt number `i` observes).  `fuel`
counts the remaining loop iterations (`maxAttempts - attempts`).  Mirrors
the source: `"completed"` returns the results; `"queued"`/`"in-progress"`
sleeps and continues; `"failed"` throws inside the `try`, which the
`catch` block receives — re-thrown as the timeout error only when
`attempts >= maxAttempts`, otherwise logged and retried; a request error
takes the same `catch` path; an unrecognized status falls through and the
loop re-iterates; exhausting the loop throws the plain timeout error. -/
def pollVirusTotalResultsAux (script : Nat → VTPollStep) (maxAttempts : Nat) :
    Nat → Nat → Except String String
  | _, 0 => .error (vtTimeoutMsg maxAttempts)
  | attempts, fuel + 1 =>
      let a := attempts + 1
      match script a with
      | .response r =>
          if r.status = "completed" then .ok r.results
          else if r.status = "queued" ∨ r.status = "in-progress" then
            pollVirusTotalResultsAux script maxAttempts a fuel
          else if r.status = "failed" then
            if maxAttempts ≤ a then
              .error (vtTimeoutMsg maxAttempts ++ ": VirusTotal analysis failed")
            else pollVirusTotalResultsAux script maxAttempts a fuel
          else pollVirusTotalResultsAux script maxAttempts a fuel
      | .requestError msg =>
          if maxAttempts ≤ a then
            .error (vtTimeoutMsg maxAttempts ++ ": " ++ msg)
          else pollVirusTotalResultsAux script maxAttempts a fuel

/-- `pollVirusTotalResults` with its source constants
(`maxAttempts = 30`, starting from `attempts = 0`). -/
def pollVirusTotalResults (script : Nat → VTPollStep) : Except String String :=
  pollVirusTotalResultsAux script 30 0 30

/-- A response the loop treats as still pending
(status `"queued"` or `"in-progress"`). -/
def VTPollStep.isPending : VTPollStep → Bool
  | .response r => r.status == "queued" || r.status == "in-progress"
  | .requestError _ => false

/-- If a completed response arrives at attempt `k` within budget, with
only pending responses before it, the loop returns the payload. -/
lemma pollVT_aux_done (script : Nat → VTPollStep) (maxAttempts k : Nat)
    (payload : String)
    (hdone : script k = .response { status := "completed", results := payload }) :
    ∀ fuel attempts, attempts + fuel = maxAttempts → attempts < k →
      k ≤ maxAttempts →
      (∀ i, attempts < i → i < k → (script i).isPending = true) →
      pollVirusTotalResultsAux script maxAttempts attempts fuel = .ok payload := by
  intro fuel
  induction fuel with
  | zero =>
      intro attempts hinv h1 h2 _
      omega
  | succ n ih =>
      intro attempts hinv h1 h2 hp
      rcases Nat.lt_or_ge (attempts + 1) k with hlt | hge
      · have hpend := hp (attempts + 1) (Nat.lt_succ_self attempts) hlt
        cases hs : script (attempts + 1) with
        | response r =>
            rw [hs] at hpend
            simp only [VTPollStep.isPending, Bool.or_eq_true, beq_iff_eq] at hpend
            have hnc : ¬ r.status = "completed" := by
              rcases hpend with h | h <;> rw [h] <;> decide
            simp only [pollVirusTotalResultsAux, hs, if_neg hnc, if_pos hpend]
            exact ih (attempts + 1) (by omega) hlt h2
              (fun i hi1 hi2 => hp i (by omega) hi2)
        | requestError msg =>
            rw [hs] at hpend
            simp [VTPollStep.isPending] at hpend
      · have hk : attempts + 1 = k := by omega
        simp only [pollVirusTotalResultsAux, hk, hdone]
        simp

/-- If every attempt through the budget observes a pending response, the
loop exhausts its fuel and returns the plain timeout error. -/
lemma pollVT_aux_pending_timeout (script : Nat → VTPollStep) (maxAttempts : Nat) :
    ∀ fuel attempts, attempts + fuel = maxAttempts →
      (∀ i, attempts < i → i ≤ maxAttempts → (script i).isPending = true) →
      pollVirusTotalResultsAux script maxAttempts attempts fuel =
        .error (vtTimeoutMsg maxAttempts) := by
  intro fuel
  induction fuel with
  | zero =>
      intro attempts _ _
      simp [pollVirusTotalResultsAux]
  | succ n ih =>
      intro attempts hinv hp
      have hpend := hp (attempts + 1) (Nat.lt_succ_self attempts) (by omega)
      cases hs : script (attempts + 1) with
      | response r =>
          rw [hs] at hpend
          simp only [VTPollStep.isPending, Bool.or_eq_true, beq_iff_eq] at hpend
          have hnc : ¬ r.status = "completed" := by
            rcases hpend with h | h <;> rw [h] <;> decide
          simp only [pollVirusTotalResultsAux, hs, if_neg hnc, if_pos hpend]
          exact ih (attempts + 1) (by omega) (fun i hi1 hi2 => hp i (by omega) hi2)
      | requestError msg =>
          rw [hs] at hpend
          simp [VTPollStep.isPending] at hpend

/-- C4 counterexample script: the provider reports an explicit failure
signal (`status = "failed"`) at attempt 1, then completed results from
attempt 2 on. -/
def failThenDoneScript : Nat → VTPollStep := fun i =>
  if i = 1 then .response { status := "failed", results := "" }
  else .response { status := "completed", results := "vt-results" }

/-- C4 counterexample: an explicit provider failure signal at attempt 1
does not make the driver raise a failure error — the `throw` lands in the
loop's own `catch`, is treated as transient and retried, and the driver
goes on to return the next attempt's payload.  This refutes the claim
that a failure signal raises a failure error immediately without
consuming the remaining attempts. -/
theorem C4_cex_failure_signal_is_retried :
    failThenDoneScript 1 = .response { status := "failed", results := "" } ∧
    pollVirusTotalResults failThenDoneScript = .ok ("vt-results") := by
  constructor
  · rfl
  · rfl

/-- C4 (amended): the driver returns the payload on a recognized done
signal before budget exhaustion and raises the timeout error when every
response through the budget is pending; but an explicit provider failure
signal is caught by the loop's own error handler and retried like a
transient error — at a non-final attempt the loop simply continues with
the next attempt, and only on the final attempt does the failure surface,
wrapped in the timeout error message. -/
theorem C4_poll_driver :
    (∀ (script : Nat → VTPollStep) (k : Nat) (payload : String),
      1 ≤ k → k ≤ 30 →
      script k = .response { status := "completed", results := payload } →
      (∀ i, 1 ≤ i → i < k → (script i).isPending = true) →
      pollVirusTotalResults script = .ok payload) ∧
    (∀ script : Nat → VTPollStep,
      (∀ i, 1 ≤ i → i ≤ 30 → (script i).isPending = true) →
      pollVirusTotalResults script = .error (vtTimeoutMsg 30)) ∧
    (∀ (script : Nat → VTPollStep) (maxAttempts attempts fuel : Nat)
      (r : VTAnalysisResponse),
      script (attempts + 1) = .response r → r.status = "failed" →
      attempts + 1 < maxAttempts →
      pollVirusTotalResultsAux script maxAttempts attempts (fuel + 1) =
        pollVirusTotalResultsAux script maxAttempts (attempts + 1) fuel) ∧
    (∀ (script : Nat → VTPollStep) (maxAttempts attempts : Nat)
      (r : VTAnalysisResponse),
      script (attempts + 1) = .response r → r.status = "failed" →
      maxAttempts ≤ attempts + 1 →
      pollVirusTotalResultsAux script maxAttempts attempts 1 =
        .error (vtTimeoutMsg maxAttempts ++ ": VirusTotal analysis failed")) := by
  refine ⟨?_, ?_, ?_, ?_⟩
  · intro script k payload hk1 hk2 hdone hp
    exact pollVT_aux_done script 30 k payload hdone 30 0 rfl hk1 hk2
      (fun i hi1 hi2 => hp i hi1 hi2)
  · intro script hp
    exact pollVT_aux_pending_timeout script 30 30 0 rfl
      (fun i hi1 hi2 => hp i hi1 hi2)
  · intro script maxAttempts attempts fuel r hs hfail hlt
    have hnc : ¬ r.status = "completed" := by rw [hfail]; decide
    have hnp : ¬ (r.status = "queued" ∨ r.status = "in-progress") := by
      rw [hfail]; decide
    have hna : ¬ maxAttempts ≤ attempts + 1 := by omega
    simp only [pollVirusTotalResultsAux, hs, if_neg hnc, if_neg hnp,
      if_pos hfail, if_neg hna]
  · intro script maxAttempts attempts r hs hfail hge
    have hnc : ¬ r.status = "completed" := by rw [hfail]; decide
    have hnp : ¬ (r.status = "queued" ∨ r.status = "in-progress") := by
      rw [hfail]; decide
    simp only [pollVirusTotalResultsAux, hs, if_neg hnc, if_neg hnp,
      if_pos hfail, if_pos hge]

/-- C4 witness: concrete instances of each amended conjunct — a script
pending at attempt 1 and done at attempt 2 returns the payload, the
always-pending script times out, and a failure response at attempt 1 of a
2-attempt budget is retried while one at the final attempt surfaces as
the wrapped timeout error. -/
theorem C4_poll_driver_witness :
    pollVirusTotalResults (fun i =>
        if i = 1 then .response { status := "queued", results := "" }
        else .response { status := "completed", results := "done-payload" }) =
      .ok ("done-payload") ∧
    pollVirusTotalResults
        (fun _ => .response { status := "queued", results := "" }) =
      .error (vtTimeoutMsg 30) ∧
    pollVirusTotalResultsAux failThenDoneScript 3 0 2 =
      pollVirusTotalResultsAux failThenDoneScript 3 1 1 ∧
    pollVirusTotalResultsAux (fun _ => .response { status := "failed", results := "" })
        1 0 1 =
      .error (vtTimeoutMsg 1 ++ ": VirusTotal analysis failed") := by
  refine ⟨?_, ?_, ?_, ?_⟩
  · exact C4_poll_driver.1 _ 2 ("done-payload") (by decide) (by decide) rfl
      (by intro i h1 h2
          have : i = 1 := by omega
          rw [this]
          decide)
  · exact C4_poll_driver.2.1 _ (by intro i h1 h2; decide)
  · exact C4_poll_driver.2.2.1 failThenDoneScript 3 0 1
      { status := "failed", results := "" } rfl rfl (by decide)
  · exact C4_poll_driver.2.2.2 _ 1 0 { status := "failed", results := "" }
      rfl rfl (by decide)

/-- The four scan providers invoked by `processScan`. -/
inductive Provider where
  | mobsf
  | virustotal
  | metadefender
  | hybridAnalysis
  deriving Repr, DecidableEq

/-- The `updateData` object persisted on successful completion:
`scan_status: "completed"`, `tf_score`, `pdf_report_url`, `report_data`. -/
structure CompletedUpdate where
  scan_status : String
  tf_score : Int
  pdf_report_url : String
  report_data : ScanResults
  deriving Repr, DecidableEq

/-- The externally visible steps of `processScan`, in program order:
temp-directory creation, file download, dispatching and settling each
provider call, the PDF upload, the terminal record update (carrying the
full `updateData`), removal of the temp directory, and the catch block's
status-only failure write. -/
inductive ScanEvent where
  | mkTempDir
  | downloadFile
  | dispatch (p : Provider)
  | settle (p : Provider)
  | uploadPDF
  | updateCompleted (u : CompletedUpdate)
  | removeTempDir
  | updateStatusFailedOnly
  deriving Repr, DecidableEq

/-- The environment a `processScan` run observes: the outcome of each
provider call (`.error` embeds a rejected promise), the storage path of
the PDF report, and whether the PDF upload and the record update
succeed. -/
structure ScanEnv where
  mobsf : Except String MobSFRes
  virustotal : Except String VTResult
  metadefender : Except String MDResult
  hybridAnalysis : Except String HAResult
  pdfPath : String
  pdfUploadOk : Bool
  updateOk : Bool

/-- How `processScan` records a VirusTotal outcome in the combined
results: the payload on success, `\x7berror: message\x7d` when the
per-provider `catch` fires. -/
def settleVT : Except String VTResult → VTResult
  | .ok v => v
  | .error msg => .errorResult msg

/-- MetaDefender outcome recorded by the per-provider `catch`. -/
def settleMD : Except String MDResult → MDResult
  | .ok v => v
  | .error msg => .errorResult msg

/-- Hybrid Analysis outcome recorded by the per-provider `catch`. -/
def settleHA : Except String HAResult → HAResult
  | .ok v => v
  | .error msg => .errorResult msg

/-- `processScan`, embedded as the event trace it produces together with
its outcome.  Control flow mirrors the source: the temp dir is created
and the file downloaded; the mandatory MobSF scan is awaited first and
its failure jumps to the outer `catch` (which writes only
`scan_status: "failed"` and rethrows); each optional provider is then
awaited in sequence inside its own `try/catch`; the score is computed,
the PDF uploaded, and the terminal update persisted; only after a
successful update is the temp directory removed.  The outer `catch` path
performs no temp-dir removal. -/
def processScan (env : ScanEnv) : List ScanEvent × Except String CompletedUpdate :=
  let pre := [ScanEvent.mkTempDir, ScanEvent.downloadFile,
    ScanEvent.dispatch .mobsf, ScanEvent.settle .mobsf]
  match env.mobsf with
  | .error msg => (pre ++ [ScanEvent.updateStatusFailedOnly], .error msg)
  | .ok mobsfResult =>
      let vt := settleVT env.virustotal
      let md := settleMD env.metadefender
      let ha := settleHA env.hybridAnalysis
      let providerEvents := [ScanEvent.dispatch .virustotal,
        ScanEvent.settle .virustotal, ScanEvent.dispatch .metadefender,
        ScanEvent.settle .metadefender, ScanEvent.dispatch .hybridAnalysis,
        ScanEvent.settle .hybridAnalysis]
      let combinedResults : ScanResults :=
        { mobsf := mobsfResult, virustotal := vt, metadefender := md,
          hybridAnalysis := ha }
      let tfScore := calculateTFScore combinedResults
      let trace := pre ++ providerEvents ++ [ScanEvent.uploadPDF]
      if env.pdfUploadOk = false then
        (trace ++ [ScanEvent.updateStatusFailedOnly],
          .error ("Failed to upload PDF report"))
      else
        let u : CompletedUpdate :=
          { scan_status := "completed", tf_score := tfScore,
            pdf_report_url := env.pdfPath, report_data := combinedResults }
        let trace := trace ++ [ScanEvent.updateCompleted u]
        if env.updateOk = false then
          (trace ++ [ScanEvent.updateStatusFailedOnly],
            .error ("Failed to update scan record"))
        else
          (trace ++ [ScanEvent.removeTempDir], .ok u)

/-- The bundle every provider of `allOkEnv` reports: clean results all
around. -/
def allOkBundle : ScanResults :=
  { mobsf := .withAppsec { high := [], medium := [], low := [] }
  , virustotal := .engines []
  , metadefender := .details []
  , hybridAnalysis := .summary { verdict := some ("clean"), threats := [] } }

/-- An all-success environment used as a concrete input. -/
def allOkEnv : ScanEnv :=
  { mobsf := .ok allOkBundle.mobsf
  , virustotal := .ok allOkBundle.virustotal
  , metadefender := .ok allOkBundle.metadefender
  , hybridAnalysis := .ok allOkBundle.hybridAnalysis
  , pdfPath := "user/scan/report.pdf"
  , pdfUploadOk := true
  , updateOk := true }

/-- The environment in which every infrastructure step succeeds and the
provider calls resolve to the given outcomes. -/
def envOf (m : Except String MobSFRes) (v : Except String VTResult)
    (md : Except String MDResult) (ha : Except String HAResult)
    (pdf : String) : ScanEnv :=
  { mobsf := m, virustotal := v, metadefender := md, hybridAnalysis := ha,
    pdfPath := pdf, pdfUploadOk := true, updateOk := true }

/-- The completed `updateData` object for a given bundle and report path. -/
def completedUpdateOf (results : ScanResults) (pdf : String) : CompletedUpdate :=
  { scan_status := "completed", tf_score := calculateTFScore results,
    pdf_report_url := pdf, report_data := results }

/-- C5: when the mandatory scan and all infrastructure steps succeed and
exactly one optional provider fails, orchestration still succeeds: the
outcome is the completed update whose bundle records exactly that
provider as Failed (an `error` object with the failure message) and every
other provider with its success payload — the optional failure never
escapes as an error of the pipeline. -/
theorem C5_optional_failure_contained :
    (∀ (m : MobSFRes) (msg : String) (mdA : MDResult) (haA : HAResult)
      (pdf : String),
      (processScan (envOf (.ok m) (.error msg) (.ok mdA) (.ok haA) pdf)).2 =
        .ok (completedUpdateOf ⟨m, .errorResult msg, mdA, haA⟩ pdf)) ∧
    (∀ (m : MobSFRes) (vtA : VTResult) (msg : String) (haA : HAResult)
      (pdf : String),
      (processScan (envOf (.ok m) (.ok vtA) (.error msg) (.ok haA) pdf)).2 =
        .ok (completedUpdateOf ⟨m, vtA, .errorResult msg, haA⟩ pdf)) ∧
    (∀ (m : MobSFRes) (vtA : VTResult) (mdA : MDResult) (msg : String)
      (pdf : String),
      (processScan (envOf (.ok m) (.ok vtA) (.ok mdA) (.error msg) pdf)).2 =
        .ok (completedUpdateOf ⟨m, vtA, mdA, .errorResult msg⟩ pdf)) := by
  refine ⟨?_, ?_, ?_⟩ <;>
    intro _ _ _ _ _ <;>
    simp [processScan, envOf, completedUpdateOf, settleVT, settleMD, settleHA]

/-- A `scans` row as created by the upload flow and touched by the
worker: identity and ownership columns, the status, and the
result-carrying columns (`report_data`, `tf_score`, `pdf_report_url`),
which stay `NULL` until completion. -/
structure ScanRecord where
  scan_id : String
  user_id : String
  file_name : String
  file_url : String
  scan_status : String
  report_data : Option ScanResults
  tf_score : Option Int
  pdf_report_url : Option String
  deriving Repr, DecidableEq

/-- The catch block's write
`.update(\x7b scan_status: "failed" \x7d)`: a partial update that
touches only the status column. -/
def applyFailedStatusUpdate (r : ScanRecord) : ScanRecord :=
  { r with scan_status := "failed" }

/-- C6: when the mandatory MobSF scan fails, `processScan` rethrows that
failure, never reaches the completed-record update (so no bundle, score
or report reference is persisted), executes exactly the steps up to the
mandatory scan plus the failure write, and that write sets only the
status column to `"failed"`, leaving every other column of the record
unchanged. -/
theorem C6_mandatory_failure_persists_nothing :
    (∀ (env : ScanEnv) (msg : String), env.mobsf = .error msg →
      (processScan env).2 = .error msg ∧
      (processScan env).1 = [ScanEvent.mkTempDir, ScanEvent.downloadFile,
        ScanEvent.dispatch .mobsf, ScanEvent.settle .mobsf,
        ScanEvent.updateStatusFailedOnly] ∧
      (∀ u : CompletedUpdate, ScanEvent.updateCompleted u ∉ (processScan env).1)) ∧
    (∀ r : ScanRecord,
      (applyFailedStatusUpdate r).scan_status = "failed" ∧
      (applyFailedStatusUpdate r).scan_id = r.scan_id ∧
      (applyFailedStatusUpdate r).user_id = r.user_id ∧
      (applyFailedStatusUpdate r).file_name = r.file_name ∧
      (applyFailedStatusUpdate r).file_url = r.file_url ∧
      (applyFailedStatusUpdate r).report_data = r.report_data ∧
      (applyFailedStatusUpdate r).tf_score = r.tf_score ∧
      (applyFailedStatusUpdate r).pdf_report_url = r.pdf_report_url) := by
  constructor
  · intro env msg hm
    refine ⟨?_, ?_, ?_⟩ <;> simp [processScan, hm]
  · intro r
    simp [applyFailedStatusUpdate]

/-- A concrete environment whose mandatory scan fails. -/
def mobsfFailEnv : ScanEnv :=
  { allOkEnv with mobsf := .error ("MobSF scan failed: upload rejected") }

/-- C6 witness: on the concrete mandatory-failure environment the
outcome is the rethrown error, the trace is exactly the prefix plus the
status-only failure write, and the failure write leaves a concrete
record's other columns unchanged. -/
theorem C6_mandatory_failure_persists_nothing_witness :
    ((processScan mobsfFailEnv).2 = .error ("MobSF scan failed: upload rejected") ∧
      (processScan mobsfFailEnv).1 = [ScanEvent.mkTempDir, ScanEvent.downloadFile,
        ScanEvent.dispatch .mobsf, ScanEvent.settle .mobsf,
        ScanEvent.updateStatusFailedOnly] ∧
      (∀ u : CompletedUpdate,
        ScanEvent.updateCompleted u ∉ (processScan mobsfFailEnv).1)) ∧
    (applyFailedStatusUpdate
        { scan_id := "s1", user_id := "u1", file_name := "a.apk",
          file_url := "app-uploads/u1/a.apk", scan_status := "pending",
          report_data := none, tf_score := none,
          pdf_report_url := none }).scan_status = "failed" :=
  ⟨C6_mandatory_failure_persists_nothing.1 mobsfFailEnv
      ("MobSF scan failed: upload rejected") rfl,
    (C6_mandatory_failure_persists_nothing.2
      { scan_id := "s1", user_id := "u1", file_name := "a.apk",
        file_url := "app-uploads/u1/a.apk", scan_status := "pending",
        report_data := none, tf_score := none, pdf_report_url := none }).1⟩

/-- C8 evidence: `processScan` removes the temp directory only on the
fully successful path.  On the mandatory-failure path the directory is
created but the catch block contains no removal, so the job's local
temporary storage is not reclaimed; the same holds when the PDF upload or
the terminal record update fails. -/
theorem C8_temp_dir_leak_on_failure :
    (ScanEvent.mkTempDir ∈ (processScan mobsfFailEnv).1 ∧
      ScanEvent.removeTempDir ∉ (processScan mobsfFailEnv).1) ∧
    (ScanEvent.mkTempDir ∈ (processScan { allOkEnv with pdfUploadOk := false }).1 ∧
      ScanEvent.removeTempDir ∉
        (processScan { allOkEnv with pdfUploadOk := false }).1) ∧
    (ScanEvent.mkTempDir ∈ (processScan { allOkEnv with updateOk := false }).1 ∧
      ScanEvent.removeTempDir ∉
        (processScan { allOkEnv with updateOk := false }).1) ∧
    ScanEvent.removeTempDir ∈ (processScan allOkEnv).1 := by
  refine ⟨⟨?_, ?_⟩, ⟨?_, ?_⟩, ⟨?_, ?_⟩, ?_⟩ <;> decide

/-- C9 counterexample: with every provider succeeding, the trace of
`processScan` awaits (settles) VirusTotal before MetaDefender is even
dispatched, and MetaDefender before Hybrid Analysis is dispatched: the
optional providers run sequentially, so it is false that all optional
calls are dispatched before any is awaited. -/
theorem C9_cex_sequential_not_fanout :
    (processScan allOkEnv).1 = [ScanEvent.mkTempDir, ScanEvent.downloadFile,
      ScanEvent.dispatch .mobsf, ScanEvent.settle .mobsf,
      ScanEvent.dispatch .virustotal, ScanEvent.settle .virustotal,
      ScanEvent.dispatch .metadefender, ScanEvent.settle .metadefender,
      ScanEvent.dispatch .hybridAnalysis, ScanEvent.settle .hybridAnalysis,
      ScanEvent.uploadPDF,
      ScanEvent.updateCompleted (completedUpdateOf allOkBundle ("user/scan/report.pdf")),
      ScanEvent.removeTempDir] ∧
    (processScan allOkEnv).1.indexOf (ScanEvent.settle .virustotal) <
      (processScan allOkEnv).1.indexOf (ScanEvent.dispatch .metadefender) ∧
    (processScan allOkEnv).1.indexOf (ScanEvent.settle .metadefender) <
      (processScan allOkEnv).1.indexOf (ScanEvent.dispatch .hybridAnalysis) := by
  refine ⟨?_, ?_, ?_⟩ <;> decide

/-- C9 (amended): whenever the mandatory scan succeeds, the optional
providers execute strictly in sequence — VirusTotal is dispatched and
settled, then MetaDefender, then Hybrid Analysis — and the combined
bundle is assembled only after all three have settled (every event after
the last settle carries the fully combined results). -/
theorem C9_sequential_providers :
    ∀ (env : ScanEnv) (m : MobSFRes), env.mobsf = .ok m →
      ∃ rest, (processScan env).1 = [ScanEvent.mkTempDir,
        ScanEvent.downloadFile, ScanEvent.dispatch .mobsf,
        ScanEvent.settle .mobsf, ScanEvent.dispatch .virustotal,
        ScanEvent.settle .virustotal, ScanEvent.dispatch .metadefender,
        ScanEvent.settle .metadefender, ScanEvent.dispatch .hybridAnalysis,
        ScanEvent.settle .hybridAnalysis, ScanEvent.uploadPDF] ++ rest := by
  intro env m hm
  by_cases hpdf : env.pdfUploadOk = false
  · exact ⟨[ScanEvent.updateStatusFailedOnly], by simp [processScan, hm, hpdf]⟩
  · by_cases hupd : env.updateOk = false
    · refine ⟨[ScanEvent.updateCompleted (completedUpdateOf
        ⟨m, settleVT env.virustotal, settleMD env.metadefender,
          settleHA env.hybridAnalysis⟩ env.pdfPath),
        ScanEvent.updateStatusFailedOnly], ?_⟩
      simp [processScan, hm, hpdf, hupd, completedUpdateOf]
    · refine ⟨[ScanEvent.updateCompleted (completedUpdateOf
        ⟨m, settleVT env.virustotal, settleMD env.metadefender,
          settleHA env.hybridAnalysis⟩ env.pdfPath),
        ScanEvent.removeTempDir], ?_⟩
      simp [processScan, hm, hpdf, hupd, completedUpdateOf]

/-- C9 witness: the sequential-trace decomposition at the all-success
environment. -/
theorem C9_sequential_providers_witness :
    ∃ rest, (processScan allOkEnv).1 = [ScanEvent.mkTempDir,
      ScanEvent.downloadFile, ScanEvent.dispatch .mobsf,
      ScanEvent.settle .mobsf, ScanEvent.dispatch .virustotal,
      ScanEvent.settle .virustotal, ScanEvent.dispatch .metadefender,
      ScanEvent.settle .metadefender, ScanEvent.dispatch .hybridAnalysis,
      ScanEvent.settle .hybridAnalysis, ScanEvent.uploadPDF] ++ rest :=
  C9_sequential_providers allOkEnv
    (.withAppsec { high := [], medium := [], low := [] }) rfl

/-- The job descriptor `retryScan` adds to the queue:
`\x7b scanId, userId, filePath \x7d` taken from the fetched record. -/
structure JobDescriptor where
  scanId : String
  userId : String
  filePath : String
  deriving Repr, DecidableEq

/-- The externally visible steps of `retryScan`: adding the job back to
the queue, and a successful status write. -/
inductive RetryEvent where
  | enqueue (d : JobDescriptor)
  | updateStatus (s : String)
  deriving Repr, DecidableEq

/-- The HTTP exceptions `retryScan` can throw. -/
inductive HttpError where
  | notFound (msg : String)
  | badRequest (msg : String)
  | internalServerError (msg : String)
  deriving Repr, DecidableEq

/-- The environment a `retryScan` call observes: the record the select
returns (`none` embeds the error-or-missing case) and whether the status
update succeeds. -/
structure RetryEnv where
  scan : Option ScanRecord
  updateOk : Bool

/-- The success reply of `retryScan`. -/
structure RetryReply where
  message : String
  scanId : String
  deriving Repr, DecidableEq

/-- `retryScan`, embedded as its event trace and result.  Mirrors the
source: a missing record throws `NotFoundException`; a record whose
`scan_status` is not `"failed"` throws `BadRequestException` before any
side effect; otherwise the job descriptor is enqueued FIRST, and only
then is the status updated — to the string `"retrying"` — with an update
failure throwing `InternalServerErrorException` after the enqueue has
already happened. -/
def retryScan (env : RetryEnv) : List RetryEvent × Except HttpError RetryReply :=
  match env.scan with
  | none => ([], .error (.notFound ("Scan not found")))
  | some scan =>
      if scan.scan_status ≠ "failed" then
        ([], .error (.badRequest ("Only failed scans can be retried")))
      else
        let d : JobDescriptor := ⟨scan.scan_id, scan.user_id, scan.file_url⟩
        if env.updateOk then
          ([RetryEvent.enqueue d, RetryEvent.updateStatus ("retrying")],
            .ok ⟨"Scan retry initiated successfully", scan.scan_id⟩)
        else
          ([RetryEvent.enqueue d],
            .error (.internalServerError ("Failed to update scan status")))

/-- Environment constructor for `retryScan`. -/
def retryEnvOf (s : Option ScanRecord) (ok : Bool) : RetryEnv :=
  { scan := s, updateOk := ok }

/-- A concrete failed scan record. -/
def failedRecord : ScanRecord :=
  { scan_id := "s1", user_id := "u1", file_name := "a.apk",
    file_url := "app-uploads/u1/a.apk", scan_status := "failed",
    report_data := none, tf_score := none, pdf_report_url := none }

/-- The same record still `pending`. -/
def pendingRecord : ScanRecord :=
  { failedRecord with scan_status := "pending" }

/-- C7 counterexample: an accepted retry on a failed scan does not
transition the job to `processing` — the status write the code performs
is `"retrying"`, a value outside the spec's `pending → processing →
completed|failed` state set.  The trace contains a `"retrying"` status
write and no `"processing"` one. -/
theorem C7_cex_retry_sets_retrying :
    (retryScan (retryEnvOf (some failedRecord) true)).1 =
      [RetryEvent.enqueue ⟨"s1", "u1", "app-uploads/u1/a.apk"⟩,
        RetryEvent.updateStatus ("retrying")] ∧
    RetryEvent.updateStatus ("processing") ∉
      (retryScan (retryEnvOf (some failedRecord) true)).1 ∧
    ("retrying" : String) ≠ "processing" := by
  refine ⟨?_, ?_, ?_⟩ <;> decide

/-- C7 (amended): retry is accepted only when the fetched record's
status is `failed` — any other current status (`pending`, `processing`,
`completed`, ...) is rejected as a `BadRequest` client error with no side
effect, and a missing record as `NotFound` — and an accepted retry
re-enqueues the job descriptor and transitions the status from `failed`
to `"retrying"` (not `"processing"`). -/
theorem C7_retry_only_from_failed :
    (∀ (env : RetryEnv) (scan : ScanRecord), env.scan = some scan →
      scan.scan_status ≠ "failed" →
      (retryScan env).2 = .error (.badRequest ("Only failed scans can be retried")) ∧
      (retryScan env).1 = []) ∧
    (∀ env : RetryEnv, env.scan = none →
      (retryScan env).2 = .error (.notFound ("Scan not found")) ∧
      (retryScan env).1 = []) ∧
    (∀ (env : RetryEnv) (scan : ScanRecord), env.scan = some scan →
      scan.scan_status = "failed" → env.updateOk = true →
      (retryScan env).2 = .ok ⟨"Scan retry initiated successfully", scan.scan_id⟩ ∧
      (retryScan env).1 =
        [RetryEvent.enqueue ⟨scan.scan_id, scan.user_id, scan.file_url⟩,
          RetryEvent.updateStatus ("retrying")]) := by
  refine ⟨?_, ?_, ?_⟩
  · intro env scan hs hst
    constructor <;> simp [retryScan, hs, hst]
  · intro env hs
    constructor <;> simp [retryScan, hs]
  · intro env scan hs hst hupd
    constructor <;> simp [retryScan, hs, hst, hupd]

/-- C7 witness: a retry on a `pending` record is rejected with no
side effect, and one on the concrete failed record succeeds, enqueueing
the descriptor and writing status `"retrying"`. -/
theorem C7_retry_only_from_failed_witness :
    ((retryScan (retryEnvOf (some pendingRecord) true)).2 =
      .error (.badRequest ("Only failed scans can be retried")) ∧
      (retryScan (retryEnvOf (some pendingRecord) true)).1 = []) ∧
    ((retryScan (retryEnvOf (some failedRecord) true)).2 =
      .ok ⟨"Scan retry initiated successfully", "s1"⟩ ∧
      (retryScan (retryEnvOf (some failedRecord) true)).1 =
        [RetryEvent.enqueue ⟨"s1", "u1", "app-uploads/u1/a.apk"⟩,
          RetryEvent.updateStatus ("retrying")]) :=
  ⟨C7_retry_only_from_failed.1
      (retryEnvOf (some pendingRecord) true)
      { failedRecord with scan_status := "pending" } rfl (by decide),
    C7_retry_only_from_failed.2.2
      (retryEnvOf (some failedRecord) true) failedRecord rfl rfl rfl⟩

/-- C10: the enqueue precedes the status update in `retryScan`, so when
the status update fails on an accepted retry the caller receives an
`InternalServerError` even though the job descriptor has already been
added to the queue: the error return does not imply the absence of side
effects.  (And on the success path the trace likewise shows the enqueue
happening before the status write.) -/
theorem C10_retry_enqueue_before_update :
    (∀ (env : RetryEnv) (scan : ScanRecord), env.scan = some scan →
      scan.scan_status = "failed" → env.updateOk = false →
      (retryScan env).2 =
        .error (.internalServerError ("Failed to update scan status")) ∧
      (retryScan env).1 =
        [RetryEvent.enqueue ⟨scan.scan_id, scan.user_id, scan.file_url⟩]) ∧
    (∀ (env : RetryEnv) (scan : ScanRecord), env.scan = some scan →
      scan.scan_status = "failed" → env.updateOk = true →
      (retryScan env).1 =
        [RetryEvent.enqueue ⟨scan.scan_id, scan.user_id, scan.file_url⟩,
          RetryEvent.updateStatus ("retrying")]) := by
  constructor
  · intro env scan hs hst hupd
    constructor <;> simp [retryScan, hs, hst, hupd]
  · intro env scan hs hst hupd
    simp [retryScan, hs, hst, hupd]

/-- C10 witness: with the concrete failed record and a failing status
update, the call errors while the enqueue is already in the trace. -/
theorem C10_retry_enqueue_before_update_witness :
    (retryScan (retryEnvOf (some failedRecord) false)).2 =
      .error (.internalServerError ("Failed to update scan status")) ∧
    (retryScan (retryEnvOf (some failedRecord) false)).1 =
      [RetryEvent.enqueue ⟨"s1", "u1", "app-uploads/u1/a.apk"⟩] :=
  C10_retry_enqueue_before_update.1
    (retryEnvOf (some failedRecord) false) failedRecord rfl rfl rfl

end TrustForge
